import Mathlib

/-!
# Portfolio page script (`src/js/main.js`): embedding and properties

The script is embedded component by component.  Every handler becomes a pure
function on a record that holds just the part of the page the handler reads
or writes.

Conventions of the embedding.

* The values typed into form fields are sequences of UTF-16 code units
  (`List Nat`), because `String.prototype.trim` and a regular expression
  without the `u` flag both work on code units.  Attribute values, messages
  and the stored theme are only ever compared for equality or copied, and are
  kept as `String`.
* Coordinates returned by `getBoundingClientRect` are finite doubles; they are
  only compared, so they are embedded as rationals.
* `document.body` is dereferenced without a guard by `toggleTheme`,
  `closeMobileNav` and the nav click handler, so a document always has a body
  and the `if (!body) return` of `initTheme` is never taken.
-/

namespace Portfolio

/-! ## Strings: white space, `trim`, `includes` -/

/-- Code units matched by `\s`, which are also the ones `trim` strips: the
ECMAScript `WhiteSpace` and `LineTerminator` productions. -/
def isWhiteSpace (c : Nat) : Bool :=
  c == 0x09 || c == 0x0A || c == 0x0B || c == 0x0C || c == 0x0D || c == 0x20 ||
  c == 0xA0 || c == 0x1680 || (0x2000 ≤ c && c ≤ 0x200A) || c == 0x2028 ||
  c == 0x2029 || c == 0x202F || c == 0x205F || c == 0x3000 || c == 0xFEFF

/-- Code units of a literal (exact for the ASCII literals used below). -/
def units (s : String) : List Nat :=
  s.toList.map Char.toNat

/-- The method `String.prototype.trim`: strip white space from both ends. -/
def trim (s : List Nat) : List Nat :=
  ((s.dropWhile isWhiteSpace).reverse.dropWhile isWhiteSpace).reverse

/-- Truthiness of a string: the empty string is falsy. -/
def truthy (s : List Nat) : Bool :=
  !s.isEmpty

/-- Whether `t` starts with `p`. -/
def startsWith : List Char → List Char → Bool
  | _, [] => true
  | [], _ :: _ => false
  | c :: t, d :: p => c == d && startsWith t p

/-- The method `String.prototype.includes` on character lists. -/
def includesChars : List Char → List Char → Bool
  | [], p => p.isEmpty
  | c :: t, p => startsWith (c :: t) p || includesChars t p

/-- The call `s.includes(t)`. -/
def includes (s t : String) : Bool :=
  includesChars s.toList t.toList

/-! ## The regular expression `/^[^\s@]+@[^\s@]+\.[^\s@]+$/` -/

/-- One member of a character class. -/
inductive ClassItem where
  | space
  | lit (c : Nat)

/-- A pattern atom that consumes one code unit. -/
inductive Atom where
  | char (c : Nat)
  | cls (negated : Bool) (items : List ClassItem)

/-- A term of the pattern: an assertion, an atom, or an atom under `+`. -/
inductive Piece where
  | bol
  | eol
  | one (a : Atom)
  | plus (a : Atom)

def ClassItem.accepts : ClassItem → Nat → Bool
  | .space, c => isWhiteSpace c
  | .lit d, c => c == d

def Atom.accepts : Atom → Nat → Bool
  | .char d, c => c == d
  | .cls negated items, c => (items.any fun i => i.accepts c) != negated

/-- Greedy `a+` followed by the continuation `k`: consume one unit, then
first try to consume more, and fall back to the continuation. -/
def plusLoop (a : Atom) (k : Nat → List Nat → Bool) : Nat → List Nat → Bool
  | _, [] => false
  | pos, c :: s => a.accepts c && (plusLoop a k (pos + 1) s || k (pos + 1) s)

/-- Backtracking match of a sequence of pieces at index `pos`, where `s` is
the rest of the input from `pos` on.  There are no flags, so `^` holds only at
index 0 and `$` only at the end of the input. -/
def matchPieces : List Piece → Nat → List Nat → Bool
  | [], _, _ => true
  | .bol :: ps, pos, s => pos == 0 && matchPieces ps pos s
  | .eol :: ps, pos, s => s.isEmpty && matchPieces ps pos s
  | .one a :: ps, pos, s =>
    match s with
    | [] => false
    | c :: s => a.accepts c && matchPieces ps (pos + 1) s
  | .plus a :: ps, pos, s => plusLoop a (fun pos s => matchPieces ps pos s) pos s

/-- Try the pattern at every start index, from `pos` on. -/
def searchFrom (ps : List Piece) : Nat → List Nat → Bool
  | pos, [] => matchPieces ps pos []
  | pos, c :: s => matchPieces ps pos (c :: s) || searchFrom ps (pos + 1) s

/-- The method `RegExp.prototype.test` for a pattern without the `g` and `y` flags: the
search starts at index 0 and keeps no state. -/
def regexTest (ps : List Piece) (s : List Nat) : Bool :=
  searchFrom ps 0 s

/-- The class `[^\s@]`. -/
def notSpaceAt : Atom :=
  .cls true [.space, .lit 0x40]

/-- The constant `emailRegex = /^[^\s@]+@[^\s@]+\.[^\s@]+$/`. -/
def emailRegex : List Piece :=
  [.bol, .plus notSpaceAt, .one (.char 0x40), .plus notSpaceAt, .one (.char 0x2E),
   .plus notSpaceAt, .eol]

/-- A code unit allowed by `[^\s@]`. -/
def plainUnit (c : Nat) : Prop :=
  isWhiteSpace c = false ∧ c ≠ 0x40

/-! ## Contact form -/

/-- An input or textarea: its value and whether its class list has `error`. -/
structure Field where
  value : List Nat
  error : Bool
  deriving DecidableEq

/-- The `#form-status` element: the three things `showFormStatus` writes. -/
structure StatusEl where
  textContent : String
  className : String
  role : Option String
  deriving DecidableEq

/-- The submit button of the form. -/
structure Button where
  disabled : Bool
  textContent : String
  deriving DecidableEq

/-- The part of the page the contact form code touches.  `contactForm` itself
is not a field: `handleSubmit` is registered on that element (lines 218-220),
so it exists whenever the handler runs and `!contactForm` is false.  The
status element and the submit button are looked up under a null guard and may
be absent. -/
structure FormDoc where
  name : Field
  email : Field
  message : Field
  nameError : String
  emailError : String
  messageError : String
  formStatus : Option StatusEl
  submitBtn : Option Button
  deriving DecidableEq

/-- The function `validateForm()`: the page with the error slots and classes updated, and
the returned flag. -/
def validateForm (d : FormDoc) : FormDoc × Bool :=
  let valid := true
  let (d, valid) :=
    if !truthy (trim d.name.value) then
      ({ d with nameError := "Name is required", name := { d.name with error := true } }, false)
    else
      ({ d with nameError := "", name := { d.name with error := false } }, valid)
  let (d, valid) :=
    if !truthy (trim d.email.value) then
      ({ d with emailError := "Email is required", email := { d.email with error := true } },
        false)
    else if !regexTest emailRegex d.email.value then
      ({ d with emailError := "Please enter a valid email",
                email := { d.email with error := true } }, false)
    else
      ({ d with emailError := "", email := { d.email with error := false } }, valid)
  let (d, valid) :=
    if !truthy (trim d.message.value) then
      ({ d with messageError := "Message is required",
                message := { d.message with error := true } }, false)
    else
      ({ d with messageError := "", message := { d.message with error := false } }, valid)
  (d, valid)

/-- The function `showFormStatus(message, isError)`. -/
def showFormStatus (message : String) (isError : Bool) (d : FormDoc) : FormDoc :=
  match d.formStatus with
  | some _ =>
    { d with formStatus := some {
        textContent := message
        className := "form-status " ++
          (if isError then "form-status--error" else "form-status--success")
        role := some "alert" } }
  | none => d

def configErrorMessage : String :=
  "Contact form not configured yet. Please email me directly at pmule390@gmail.com."

def successMessage : String :=
  "Thanks! Your message was sent. I'll get back to you soon."

def failureMessage : String :=
  "Something went wrong. Please try again or email me directly."

/-- Modelled from the spec: the markup is not part of the sources, so the
entries of `new FormData(contactForm)` are taken to be the three fields of the
DOM contract ("a form with child fields name, email, message"). -/
structure Payload where
  name : List Nat
  email : List Nat
  message : List Nat
  deriving DecidableEq

/-- The arguments of the `fetch` call. -/
structure Request where
  url : String
  method : String
  body : Payload
  contentType : String
  deriving DecidableEq

/-- What the promise callbacks of `handleSubmit` close over. -/
structure Pending where
  request : Request
  hasSubmitBtn : Bool
  originalBtnText : String
  deriving DecidableEq

/-- Result of the synchronous part of `handleSubmit`: the page, whether
`preventDefault` was called, and the request in flight, if one was issued. -/
structure SubmitResult where
  doc : FormDoc
  defaultPrevented : Bool
  pending : Option Pending
  deriving DecidableEq

/-- The function `handleSubmit(e)` up to and including the `fetch` call.  The endpoint is
a parameter; the script fixes it to `FORMSPREE_ENDPOINT`. -/
def handleSubmit (endpoint : String) (d : FormDoc) : SubmitResult :=
  let (d, valid) := validateForm d
  if !valid then
    { doc := d, defaultPrevented := true, pending := none }
  else if includes endpoint "YOUR_FORM_ID" then
    { doc := showFormStatus configErrorMessage true d, defaultPrevented := true,
      pending := none }
  else
    let originalBtnText :=
      match d.submitBtn with
      | some b => b.textContent
      | none => ""
    let d1 :=
      match d.submitBtn with
      | some b => { d with submitBtn := some { b with disabled := true,
                                                      textContent := "Sending..." } }
      | none => d
    let data : Payload :=
      { name := d1.name.value, email := d1.email.value, message := d1.message.value }
    { doc := d1, defaultPrevented := true,
      pending := some {
        request := { url := endpoint, method := "POST", body := data,
                     contentType := "application/json" }
        hasSubmitBtn := d.submitBtn.isSome
        originalBtnText := originalBtnText } }

def FORMSPREE_ENDPOINT : String :=
  "https://formspree.io/f/xqeldwoe"

/-- How the `fetch` promise settles: fulfilled with a response of some HTTP
status, or rejected. -/
inductive Outcome where
  | response (status : Nat)
  | rejected
  deriving DecidableEq

/-- The property `Response.ok`: the status is in the range 200-299. -/
def responseOk (status : Nat) : Bool :=
  200 ≤ status && status ≤ 299

/-- Modelled from the spec: the markup is not part of the sources.  Following
the spec ("clears the form fields, clears all previously shown field errors"),
`contactForm.reset()` gives the three fields the empty value, `.form-error`
selects the three error slots, and `.form-group input, .form-group textarea`
selects the three fields. -/
def resetAndClear (d : FormDoc) : FormDoc :=
  let d := { d with name := { d.name with value := [] },
                    email := { d.email with value := [] },
                    message := { d.message with value := [] } }
  let d := { d with nameError := "", emailError := "", messageError := "" }
  { d with name := { d.name with error := false },
           email := { d.email with error := false },
           message := { d.message with error := false } }

/-- The `then`, `catch` and `finally` callbacks of `handleSubmit`, run on
the page `d` as it is when the promise settles. -/
def settle (p : Pending) (o : Outcome) (d : FormDoc) : FormDoc :=
  let d :=
    match o with
    | .response status =>
      if responseOk status then
        showFormStatus successMessage false (resetAndClear d)
      else
        showFormStatus failureMessage true d
    | .rejected => showFormStatus failureMessage true d
  if p.hasSubmitBtn then
    { d with submitBtn := d.submitBtn.map fun b =>
        { b with disabled := false, textContent := p.originalBtnText } }
  else d

/-- A submit event followed by the settling of the request, when one was
issued. -/
def submitAndSettle (endpoint : String) (o : Outcome) (d : FormDoc) : FormDoc :=
  let r := handleSubmit endpoint d
  match r.pending with
  | some p => settle p o r.doc
  | none => r.doc

/-! ## Theme -/

/-- State read and written by the theme code: the `data-theme` attribute of
the body (`none` when absent), the `color-scheme` value last assigned to the
root element's style, and the `theme` entry of local storage. -/
structure ThemeDoc where
  dataTheme : Option String
  colorScheme : String
  stored : Option String
  deriving DecidableEq

/-- The function `initTheme()`.  The expression `stored || 'dark'` takes the default for `null` and for
the empty string. -/
def initTheme (d : ThemeDoc) : ThemeDoc :=
  let theme :=
    match d.stored with
    | some s => if s = "" then "dark" else s
    | none => "dark"
  { d with dataTheme := some (if theme = "light" then "light" else "dark"),
           colorScheme := theme }

/-- The function `toggleTheme()`. -/
def toggleTheme (d : ThemeDoc) : ThemeDoc :=
  let next := if d.dataTheme = some "light" then "dark" else "light"
  { dataTheme := some next, colorScheme := next, stored := some next }

/-! ## Mobile navigation -/

/-- The `.nav-toggle` control: its `aria-expanded` attribute. -/
structure NavToggle where
  ariaExpanded : Option String
  deriving DecidableEq

/-- The `.nav-links` container: whether its class list has `open`. -/
structure NavLinks where
  hasOpen : Bool
  deriving DecidableEq

/-- State of the navigation code; either element may be missing. -/
structure NavDoc where
  navToggle : Option NavToggle
  navLinks : Option NavLinks
  bodyOverflow : String
  deriving DecidableEq

/-- The function `closeMobileNav()`. -/
def closeMobileNav (d : NavDoc) : NavDoc :=
  match d.navToggle, d.navLinks with
  | some _, some _ =>
    { navToggle := some { ariaExpanded := some "false" }
      navLinks := some { hasOpen := false }
      bodyOverflow := "" }
  | _, _ => d

/-- The conversion `String(b)` for a boolean. -/
def boolString (b : Bool) : String :=
  if b then "true" else "false"

/-- The click listener of the toggle control (registered only when both
elements exist). -/
def navToggleClick (d : NavDoc) : NavDoc :=
  match d.navToggle, d.navLinks with
  | some t, some l =>
    let expanded := decide (t.ariaExpanded = some "true")
    { navToggle := some { ariaExpanded := some (boolString (!expanded)) }
      navLinks := some { hasOpen := !l.hasOpen }
      bodyOverflow := if expanded then "" else "hidden" }
  | _, _ => d

/-- The resize listener (registered only when both elements exist), for a
window of inner width `innerWidth`. -/
def onResize (innerWidth : Int) (d : NavDoc) : NavDoc :=
  match d.navToggle, d.navLinks with
  | some _, some _ => if innerWidth > 768 then closeMobileNav d else d
  | _, _ => d

/-- Modelled from the spec: the markup is not part of the sources; the
navigation starts `closed`, with `aria-expanded="false"`, no `open` class and
no scroll lock. -/
def navInitial : NavDoc :=
  { navToggle := some { ariaExpanded := some "false" }
    navLinks := some { hasOpen := false }
    bodyOverflow := "" }

/-- The state after `n` clicks on the toggle control. -/
def navAfterClicks : Nat → NavDoc
  | 0 => navInitial
  | n + 1 => navToggleClick (navAfterClicks n)

/-! ## Active navigation link -/

/-- An element of `section[id]`: its `id` attribute and the top and bottom
of its bounding rectangle. -/
structure Section where
  id : String
  top : ℚ
  bottom : ℚ
  deriving DecidableEq

/-- An element of `.nav-links a[href^="#"]`: its `href` attribute and
whether its class list has `active`. -/
structure NavLink where
  href : String
  active : Bool
  deriving DecidableEq

/-- The test `rect.top <= offset && rect.bottom > offset` with offset 150. -/
def straddles (s : Section) : Bool :=
  decide (s.top ≤ 150) && decide (s.bottom > 150)

/-- The inner `forEach`: clear every link, and mark those whose `href` is
`#` followed by `id`. -/
def markFor (id : String) (links : List NavLink) : List NavLink :=
  links.map fun a =>
    let a := { a with active := false }
    if a.href = "#" ++ id then { a with active := true } else a

/-- The function `updateActiveNav()`. -/
def updateActiveNav (sections : List Section) (links : List NavLink) : List NavLink :=
  if links.length = 0 then links
  else
    sections.foldl
      (fun links s =>
        if s.id = "" then links
        else if straddles s then markFor s.id links
        else links)
      links

/-! ## Scroll reveal -/

/-- An element of `[data-reveal]`: whether its class list has `revealed`,
and the top of its bounding rectangle. -/
structure RevealEl where
  revealed : Bool
  top : ℚ
  deriving DecidableEq

/-- The function `reveal()`, for the given reduced-motion flag and window inner height. -/
def reveal (reducedMotion : Bool) (innerHeight : Int) (els : List RevealEl) : List RevealEl :=
  if reducedMotion then
    els.map fun el => { el with revealed := true }
  else
    els.map fun el =>
      if el.revealed then el
      else
        let isVisible := decide (el.top < (innerHeight : ℚ) - 80)
        if isVisible then { el with revealed := true } else el

/-- The same elements at new positions, as after a scroll. -/
def moveTo (tops : List ℚ) (els : List RevealEl) : List RevealEl :=
  List.zipWith (fun el t => { el with top := t }) els tops

/-! ## Auxiliary definitions used in the statements -/

/-- A field value is blank when nothing is left after trimming. -/
def blank (s : List Nat) : Prop :=
  trim s = []

instance (s : List Nat) : Decidable (blank s) :=
  inferInstanceAs (Decidable (trim s = []))

/-- A page with a blank name, a malformed email and a proper message. -/
def sampleInvalid : FormDoc :=
  { name := ⟨units "  ", false⟩, email := ⟨units "a@b", false⟩, message := ⟨units "hi", true⟩
    nameError := "", emailError := "", messageError := "old"
    formStatus := some ⟨"", "form-status", none⟩
    submitBtn := some ⟨false, "Send"⟩ }

/-- What `validateForm` leaves on a page whose content it accepts. -/
def validated (d : FormDoc) : FormDoc :=
  { d with name := { d.name with error := false }
           email := { d.email with error := false }
           message := { d.message with error := false }
           nameError := "", emailError := "", messageError := "" }

/-- The status element after `showFormStatus` has shown `message` with the
error or the success class. -/
def shown (message : String) (isError : Bool) : StatusEl :=
  { textContent := message
    className := if isError then "form-status form-status--error"
                 else "form-status form-status--success"
    role := some "alert" }

/-- The placeholder endpoint of an unconfigured deployment. -/
def placeholderEndpoint : String :=
  "https://formspree.io/f/YOUR_FORM_ID"

/-- A page with three empty fields, an empty status slot and a button. -/
def emptyForm : FormDoc :=
  { name := ⟨[], false⟩, email := ⟨[], false⟩, message := ⟨[], false⟩
    nameError := "", emailError := "", messageError := ""
    formStatus := some ⟨"", "form-status", none⟩
    submitBtn := some ⟨false, "Send"⟩ }

/-- The page of the submission scenarios: name `A`, email `a@b.com`,
message `hi`. -/
def filledForm : FormDoc :=
  { name := ⟨units "A", false⟩, email := ⟨units "a@b.com", false⟩
    message := ⟨units "hi", false⟩
    nameError := "", emailError := "", messageError := ""
    formStatus := some ⟨"", "form-status", none⟩
    submitBtn := some ⟨false, "Send"⟩ }

/-- The request did not succeed: a response outside 200-299, or a
rejection. -/
def Outcome.failed : Outcome → Bool
  | .response status => !responseOk status
  | .rejected => true

/-- The closed state: `aria-expanded="false"`, no `open` class, body
overflow reset. -/
def navClosed : NavDoc :=
  { navToggle := some { ariaExpanded := some "false" }
    navLinks := some { hasOpen := false }
    bodyOverflow := "" }

/-- The open state: `aria-expanded="true"`, `open` class, scroll locked. -/
def navOpened : NavDoc :=
  { navToggle := some { ariaExpanded := some "true" }
    navLinks := some { hasOpen := true }
    bodyOverflow := "hidden" }

/-- The current section in the spec's words: the last section, in document
order, that has a non-empty id and whose rectangle has top at most 150 and
bottom above 150. -/
def currentSection (sections : List Section) : Option Section :=
  (sections.filter fun s => decide (s.id ≠ "") && straddles s).getLast?

/-- Number of links marked active. -/
def activeCount (links : List NavLink) : Nat :=
  (links.filter fun a => a.active).length

/-- One iteration of the outer `forEach` of `updateActiveNav`. -/
def navStep (links : List NavLink) (s : Section) : List NavLink :=
  if s.id = "" then links
  else if straddles s then markFor s.id links
  else links

/-! ## Properties of the matcher -/

theorem plusLoop_iff (a : Atom) (k : Nat → List Nat → Bool) (s : List Nat) (pos : Nat) :
    plusLoop a k pos s = true ↔
      ∃ u v, s = u ++ v ∧ u ≠ [] ∧ (∀ c ∈ u, a.accepts c = true) ∧
        k (pos + u.length) v = true := by
  induction s generalizing pos with
  | nil =>
    simp only [plusLoop, Bool.false_eq_true, false_iff]
    rintro ⟨u, v, h, hu, -⟩
    cases u with
    | nil => exact hu rfl
    | cons d u => simp at h
  | cons c s ih =>
    simp only [plusLoop, Bool.and_eq_true, Bool.or_eq_true]
    constructor
    · rintro ⟨hc, h | h⟩
      · obtain ⟨u, v, rfl, -, hall, hk⟩ := (ih (pos + 1)).1 h
        refine ⟨c :: u, v, rfl, by simp, ?_, ?_⟩
        · intro d hd
          rcases List.mem_cons.1 hd with rfl | hd
          · exact hc
          · exact hall d hd
        · simpa [Nat.add_assoc, Nat.add_comm 1] using hk
      · exact ⟨[c], s, rfl, by simp, by simpa using hc, by simpa using h⟩
    · rintro ⟨u, v, h, hu, hall, hk⟩
      cases u with
      | nil => exact absurd rfl hu
      | cons d u =>
        simp only [List.cons_append, List.cons.injEq] at h
        obtain ⟨rfl, rfl⟩ := h
        refine ⟨hall c (by simp), ?_⟩
        by_cases hu' : u = []
        · subst hu'
          right
          simpa using hk
        · left
          refine (ih (pos + 1)).2 ⟨u, v, rfl, hu', fun e he => hall e (by simp [he]), ?_⟩
          simpa [Nat.add_assoc, Nat.add_comm 1] using hk

theorem notSpaceAt_accepts (c : Nat) : notSpaceAt.accepts c = true ↔ plainUnit c := by
  simp [notSpaceAt, Atom.accepts, ClassItem.accepts, plainUnit]

theorem char_accepts (d c : Nat) : (Atom.char d).accepts c = true ↔ c = d := by
  simp [Atom.accepts]

theorem searchFrom_bol_succ (ps : List Piece) (s : List Nat) (pos : Nat) :
    searchFrom (.bol :: ps) (pos + 1) s = false := by
  induction s generalizing pos with
  | nil => simp [searchFrom, matchPieces]
  | cons c s ih => simp [searchFrom, matchPieces, ih]

theorem regexTest_bol (ps : List Piece) (s : List Nat) :
    regexTest (.bol :: ps) s = matchPieces ps 0 s := by
  cases s with
  | nil => simp [regexTest, searchFrom, matchPieces]
  | cons c s => simp [regexTest, searchFrom, matchPieces, searchFrom_bol_succ]

theorem matchPieces_one (a : Atom) (ps : List Piece) (pos : Nat) (s : List Nat) :
    matchPieces (.one a :: ps) pos s = true ↔
      ∃ c t, s = c :: t ∧ a.accepts c = true ∧ matchPieces ps (pos + 1) t = true := by
  cases s with
  | nil => simp [matchPieces]
  | cons c t =>
    simp only [matchPieces, Bool.and_eq_true]
    constructor
    · rintro ⟨h1, h2⟩
      exact ⟨c, t, rfl, h1, h2⟩
    · rintro ⟨c', t', h, h1, h2⟩
      cases h
      exact ⟨h1, h2⟩

theorem matchPieces_plus (a : Atom) (ps : List Piece) (pos : Nat) (s : List Nat) :
    matchPieces (.plus a :: ps) pos s = true ↔
      ∃ u v, s = u ++ v ∧ u ≠ [] ∧ (∀ c ∈ u, a.accepts c = true) ∧
        matchPieces ps (pos + u.length) v = true := by
  rw [matchPieces, plusLoop_iff]

theorem matchPieces_eol (pos : Nat) (s : List Nat) :
    matchPieces [.eol] pos s = true ↔ s = [] := by
  simp [matchPieces]

theorem emailRegex_decompose (s : List Nat) :
    regexTest emailRegex s = true ↔
      ∃ l x y, s = l ++ 0x40 :: (x ++ 0x2E :: y) ∧ l ≠ [] ∧ x ≠ [] ∧ y ≠ [] ∧
        (∀ c ∈ l, plainUnit c) ∧ (∀ c ∈ x, plainUnit c) ∧ (∀ c ∈ y, plainUnit c) := by
  rw [emailRegex, regexTest_bol]
  simp only [matchPieces_plus, matchPieces_one, matchPieces_eol, notSpaceAt_accepts,
    char_accepts]
  constructor
  · rintro ⟨l, r, rfl, hl, hla, c, t, rfl, rfl, x, r, rfl, hx, hxa, d, t, rfl, rfl, y, e, rfl,
      hy, hya, rfl⟩
    exact ⟨l, x, y, by simp, hl, hx, hy, hla, hxa, hya⟩
  · rintro ⟨l, x, y, rfl, hl, hx, hy, hla, hxa, hya⟩
    exact ⟨l, _, rfl, hl, hla, _, _, rfl, rfl, x, _, rfl, hx, hxa, _, _, rfl, rfl, y, [],
      by simp, hy, hya, rfl⟩

theorem isWhiteSpace_at : isWhiteSpace 0x40 = false := by decide

theorem isWhiteSpace_dot : isWhiteSpace 0x2E = false := by decide

theorem emailRegex_characterise (s : List Nat) :
    regexTest emailRegex s = true ↔
      (∀ c ∈ s, isWhiteSpace c = false) ∧ s.count 0x40 = 1 ∧
        ∃ l d, s = l ++ 0x40 :: d ∧ l ≠ [] ∧
          ∃ i, 0 < i ∧ i + 1 < d.length ∧ d[i]? = some 0x2E := by
  rw [emailRegex_decompose]
  constructor
  · rintro ⟨l, x, y, rfl, hl, hx, hy, hla, hxa, hya⟩
    refine ⟨?_, ?_, l, x ++ 0x2E :: y, rfl, hl, x.length, ?_, ?_, ?_⟩
    · intro c hc
      simp only [List.mem_append, List.mem_cons] at hc
      rcases hc with hc | rfl | hc | rfl | hc
      · exact (hla c hc).1
      · exact isWhiteSpace_at
      · exact (hxa c hc).1
      · exact isWhiteSpace_dot
      · exact (hya c hc).1
    · have h1 : l.count 0x40 = 0 := List.count_eq_zero.2 fun h => (hla _ h).2 rfl
      have h2 : x.count 0x40 = 0 := List.count_eq_zero.2 fun h => (hxa _ h).2 rfl
      have h3 : y.count 0x40 = 0 := List.count_eq_zero.2 fun h => (hya _ h).2 rfl
      simp [List.count_append, List.count_cons, h1, h2, h3]
    · exact List.length_pos.2 hx
    · have := List.length_pos.2 hy
      simp only [List.length_append, List.length_cons]
      omega
    · rw [List.getElem?_append_right (Nat.le_refl _)]
      simp
  · rintro ⟨hws, hcount, l, d, rfl, hl, i, hi0, hi1, hi⟩
    have hc : l.count 0x40 + d.count 0x40 = 0 := by
      simp [List.count_append, List.count_cons] at hcount
      omega
    have hl0 : ∀ c ∈ l, plainUnit c := fun c hc1 =>
      ⟨hws c (by simp [hc1]), fun h => by
        subst h
        have := List.count_pos_iff.2 hc1
        omega⟩
    have hd0 : ∀ c ∈ d, plainUnit c := fun c hc1 =>
      ⟨hws c (by simp [hc1]), fun h => by
        subst h
        have := List.count_pos_iff.2 hc1
        omega⟩
    have hlt : i < d.length := by omega
    have hsplit : d = d.take i ++ 0x2E :: d.drop (i + 1) := by
      have h1 : d[i] = 0x2E := by
        have := List.getElem?_eq_getElem hlt
        rw [this] at hi
        exact Option.some.inj hi
      rw [← h1, ← List.drop_eq_getElem_cons hlt, List.take_append_drop]
    refine ⟨l, d.take i, d.drop (i + 1), by rw [← hsplit], hl, ?_, ?_, hl0, ?_, ?_⟩
    · intro h
      have := congrArg List.length h
      simp only [List.length_take, List.length_nil] at this
      omega
    · intro h
      have := congrArg List.length h
      simp only [List.length_drop, List.length_nil] at this
      omega
    · exact fun c hc1 => hd0 c (List.mem_of_mem_take hc1)
    · exact fun c hc1 => hd0 c (List.mem_of_mem_drop hc1)

/-! ## Contact form: validation -/

theorem truthy_eq_false_iff (s : List Nat) : truthy s = false ↔ s = [] := by
  cases s <;> simp [truthy]

theorem blank_iff (s : List Nat) : blank s ↔ truthy (trim s) = false := by
  rw [truthy_eq_false_iff, blank]

/-- Claim C1.  `validateForm` returns false whenever one of the three values
is blank after trimming; afterwards the name and message slots hold a
non-empty message exactly when the field is blank, the email slot exactly
when the email is blank or fails the pattern; and the result is true exactly
when the three slots are empty afterwards. -/
theorem validateForm_slots (d : FormDoc) :
    ((blank d.name.value ∨ blank d.email.value ∨ blank d.message.value) →
        (validateForm d).2 = false) ∧
      ((validateForm d).1.nameError ≠ "" ↔ blank d.name.value) ∧
      ((validateForm d).1.emailError ≠ "" ↔
        (blank d.email.value ∨ regexTest emailRegex d.email.value = false)) ∧
      ((validateForm d).1.messageError ≠ "" ↔ blank d.message.value) ∧
      ((validateForm d).2 = true ↔
        ((validateForm d).1.nameError = "" ∧ (validateForm d).1.emailError = "" ∧
          (validateForm d).1.messageError = "")) := by
  simp only [blank_iff]
  cases hn : truthy (trim d.name.value) <;> cases he : truthy (trim d.email.value) <;>
    cases hm : truthy (trim d.message.value) <;>
    cases hr : regexTest emailRegex d.email.value <;>
    simp [validateForm, hn, he, hm, hr]

/-- Claim C1 on a page with a blank name and a malformed email. -/
theorem validateForm_slots_witness :
    (validateForm sampleInvalid).2 = false ∧
      (validateForm sampleInvalid).1.nameError = "Name is required" ∧
      (validateForm sampleInvalid).1.emailError = "Please enter a valid email" ∧
      (validateForm sampleInvalid).1.messageError = "" :=
  ⟨(validateForm_slots sampleInvalid).1 (Or.inl (by decide)), by decide, by decide, by decide⟩

/-- Claim C2.  The email pattern accepts a string exactly when it has no
white space, has exactly one `@` with at least one unit before it, and the
part after the `@` has a `.` that is neither its first nor its last unit.
`a@b.c` is accepted; `a@b`, `a@.c`, `a` and the empty string are rejected. -/
theorem emailRegex_accepts_iff :
    (∀ s : List Nat,
      regexTest emailRegex s = true ↔
        (∀ c ∈ s, isWhiteSpace c = false) ∧ s.count 0x40 = 1 ∧
          ∃ l d, s = l ++ 0x40 :: d ∧ l ≠ [] ∧
            ∃ i, 0 < i ∧ i + 1 < d.length ∧ d[i]? = some 0x2E) ∧
      regexTest emailRegex (units "a@b.c") = true ∧
      regexTest emailRegex (units "a@b") = false ∧
      regexTest emailRegex (units "a@.c") = false ∧
      regexTest emailRegex (units "a") = false ∧
      regexTest emailRegex (units "") = false :=
  ⟨emailRegex_characterise, by decide, by decide, by decide, by decide, by decide⟩

/-! ## Contact form: submission -/

theorem validateForm_valid (d : FormDoc) (h : (validateForm d).2 = true) :
    (validateForm d).1 = validated d := by
  revert h
  cases hn : truthy (trim d.name.value) <;> cases he : truthy (trim d.email.value) <;>
    cases hm : truthy (trim d.message.value) <;>
    cases hr : regexTest emailRegex d.email.value <;>
    simp [validateForm, validated, hn, he, hm, hr]

theorem validateForm_keeps (d : FormDoc) :
    (validateForm d).1.name.value = d.name.value ∧
      (validateForm d).1.email.value = d.email.value ∧
      (validateForm d).1.message.value = d.message.value ∧
      (validateForm d).1.formStatus = d.formStatus ∧
      (validateForm d).1.submitBtn = d.submitBtn := by
  cases hn : truthy (trim d.name.value) <;> cases he : truthy (trim d.email.value) <;>
    cases hm : truthy (trim d.message.value) <;>
    cases hr : regexTest emailRegex d.email.value <;>
    simp [validateForm, hn, he, hm, hr]

theorem handleSubmit_invalid (endpoint : String) (d : FormDoc)
    (h : (validateForm d).2 = false) :
    handleSubmit endpoint d =
      { doc := (validateForm d).1, defaultPrevented := true, pending := none } := by
  unfold handleSubmit
  rcases hv : validateForm d with ⟨d1, valid⟩
  rw [hv] at h
  simp only at h
  subst h
  simp

theorem handleSubmit_placeholder (endpoint : String) (d : FormDoc)
    (h : (validateForm d).2 = true) (hp : includes endpoint "YOUR_FORM_ID" = true) :
    handleSubmit endpoint d =
      { doc := showFormStatus configErrorMessage true (validated d), defaultPrevented := true,
        pending := none } := by
  have hd := validateForm_valid d h
  unfold handleSubmit
  rcases hv : validateForm d with ⟨d1, valid⟩
  rw [hv] at h hd
  simp only at h hd
  subst h hd
  simp [hp]

theorem handleSubmit_send (endpoint : String) (d : FormDoc)
    (h : (validateForm d).2 = true) (hp : includes endpoint "YOUR_FORM_ID" = false) :
    handleSubmit endpoint d =
      { doc := { validated d with
                 submitBtn := d.submitBtn.map fun b =>
                   { b with disabled := true, textContent := "Sending..." } }
        defaultPrevented := true
        pending := some {
          request := { url := endpoint, method := "POST",
                       body := ⟨d.name.value, d.email.value, d.message.value⟩,
                       contentType := "application/json" }
          hasSubmitBtn := d.submitBtn.isSome
          originalBtnText := (d.submitBtn.map fun b => b.textContent).getD "" } } := by
  have hd := validateForm_valid d h
  unfold handleSubmit
  rcases hv : validateForm d with ⟨d1, valid⟩
  rw [hv] at h hd
  simp only at h hd
  subst h hd
  cases hb : d.submitBtn <;> simp [hp, validated, hb]

theorem showFormStatus_eq (message : String) (isError : Bool) (d : FormDoc) :
    showFormStatus message isError d =
      { d with formStatus := d.formStatus.map fun _ => shown message isError } := by
  rcases d with ⟨n, e, m, ne, ee, me, st, b⟩
  cases st <;> cases isError <;> simp [showFormStatus, shown]

theorem submitAndSettle_of_pending (endpoint : String) (o : Outcome) (d : FormDoc)
    (r : SubmitResult) (p : Pending) (h : handleSubmit endpoint d = r)
    (hp : r.pending = some p) :
    submitAndSettle endpoint o d = settle p o r.doc := by
  unfold submitAndSettle
  rw [h]
  simp only [hp]

/-- Claim C3, as stated, fails: with the placeholder endpoint and an empty
form, `handleSubmit` stops at the validation gate, so the status slot is left
as it was and no configuration error is shown. -/
theorem handleSubmit_placeholder_invalid_silent :
    includes placeholderEndpoint "YOUR_FORM_ID" = true ∧
      (handleSubmit placeholderEndpoint emptyForm).doc.formStatus =
        some ⟨"", "form-status", none⟩ ∧
      (handleSubmit placeholderEndpoint emptyForm).doc.formStatus ≠
        some (shown configErrorMessage true) := by
  decide

theorem validateForm_invalid_shows (d : FormDoc) (h : (validateForm d).2 = false) :
    (validateForm d).1.nameError ≠ "" ∨ (validateForm d).1.emailError ≠ "" ∨
      (validateForm d).1.messageError ≠ "" := by
  revert h
  cases hn : truthy (trim d.name.value) <;> cases he : truthy (trim d.email.value) <;>
    cases hm : truthy (trim d.message.value) <;>
    cases hr : regexTest emailRegex d.email.value <;>
    simp [validateForm, hn, he, hm, hr]

/-- Claim C3, amended.  With an endpoint that contains `YOUR_FORM_ID`,
`handleSubmit` never issues a request.  When the content passes
`validateForm`, the status slot shows the configuration error with the error
class, on the page as `validateForm` left it.  When the content does not pass,
the handler returns the page exactly as `validateForm` left it: the field
errors are shown, at least one error slot is non-empty, and the status slot is
untouched. -/
theorem handleSubmit_placeholder_guard (endpoint : String) (d : FormDoc)
    (hp : includes endpoint "YOUR_FORM_ID" = true) :
    (handleSubmit endpoint d).pending = none ∧
      ((validateForm d).2 = true →
        (handleSubmit endpoint d).doc.formStatus =
          d.formStatus.map fun _ => shown configErrorMessage true) ∧
      ((validateForm d).2 = false →
        (handleSubmit endpoint d).doc.formStatus = d.formStatus) ∧
      ((validateForm d).2 = true →
        (handleSubmit endpoint d).doc =
          showFormStatus configErrorMessage true (validateForm d).1) ∧
      ((validateForm d).2 = false →
        (handleSubmit endpoint d).doc = (validateForm d).1 ∧
          ((handleSubmit endpoint d).doc.nameError ≠ "" ∨
            (handleSubmit endpoint d).doc.emailError ≠ "" ∨
            (handleSubmit endpoint d).doc.messageError ≠ "")) := by
  cases hv : (validateForm d).2
  · rw [handleSubmit_invalid endpoint d hv]
    have hs := validateForm_invalid_shows d hv
    simp [(validateForm_keeps d).2.2.2.1, hs]
  · rw [handleSubmit_placeholder endpoint d hv hp, validateForm_valid d hv, showFormStatus_eq]
    simp [validated]

/-- Claim C3, amended, on the filled form and on the empty form, both with
the placeholder endpoint. -/
theorem handleSubmit_placeholder_guard_witness :
    ((handleSubmit placeholderEndpoint filledForm).pending = none ∧
      (handleSubmit placeholderEndpoint filledForm).doc.formStatus =
        some ⟨configErrorMessage, "form-status form-status--error", some "alert"⟩) ∧
      (handleSubmit placeholderEndpoint emptyForm).pending = none ∧
      (handleSubmit placeholderEndpoint emptyForm).doc = (validateForm emptyForm).1 ∧
      (validateForm emptyForm).1.nameError = "Name is required" ∧
      (validateForm emptyForm).1.emailError = "Email is required" ∧
      (validateForm emptyForm).1.messageError = "Message is required" :=
  have h := handleSubmit_placeholder_guard placeholderEndpoint filledForm (by decide)
  have h2 := handleSubmit_placeholder_guard placeholderEndpoint emptyForm (by decide)
  ⟨⟨h.1, h.2.1 (by decide)⟩, h2.1, (h2.2.2.2.2 (by decide)).1, by decide, by decide,
    by decide⟩

/-- Claim C4.  For content that passes validation and an endpoint without
the placeholder, `handleSubmit` issues one POST request to the endpoint; when
it settles with an ok (2xx) response the fields are empty, every error text
and error class is cleared, the status slot shows the success message with the
success class, and the button is enabled with the label it had before. -/
theorem submit_ok_final_state (endpoint : String) (d : FormDoc) (status : Nat)
    (hv : (validateForm d).2 = true) (hp : includes endpoint "YOUR_FORM_ID" = false)
    (hok : responseOk status = true) :
    (∃ p, (handleSubmit endpoint d).pending = some p ∧ p.request.method = "POST" ∧
        p.request.url = endpoint) ∧
      submitAndSettle endpoint (.response status) d =
        { name := ⟨[], false⟩, email := ⟨[], false⟩, message := ⟨[], false⟩
          nameError := "", emailError := "", messageError := ""
          formStatus := d.formStatus.map fun _ => shown successMessage false
          submitBtn := d.submitBtn.map fun b =>
            { disabled := false, textContent := b.textContent } } := by
  have hs := handleSubmit_send endpoint d hv hp
  refine ⟨⟨_, congrArg SubmitResult.pending hs, rfl, rfl⟩, ?_⟩
  rw [submitAndSettle_of_pending endpoint _ d _ _ hs rfl]
  simp only [settle, hok, if_true, showFormStatus_eq]
  cases hb : d.submitBtn <;> simp [resetAndClear, validated, hb]

/-- Claim C4 on the filled form, with a response of status 200. -/
theorem submit_ok_final_state_witness :
    submitAndSettle FORMSPREE_ENDPOINT (.response 200) filledForm =
      { name := ⟨[], false⟩, email := ⟨[], false⟩, message := ⟨[], false⟩
        nameError := "", emailError := "", messageError := ""
        formStatus := some ⟨successMessage, "form-status form-status--success", some "alert"⟩
        submitBtn := some ⟨false, "Send"⟩ } :=
  (submit_ok_final_state FORMSPREE_ENDPOINT filledForm 200 (by decide) (by decide)
    (by decide)).2

/-- Claim C5.  For content that passes validation and an endpoint without
the placeholder, when the request settles with a non-2xx response or is
rejected, the status slot shows the one generic failure message with the
error class, every field value is as it was, and the button is enabled with
the label it had before. -/
theorem submit_failed_final_state (endpoint : String) (d : FormDoc) (o : Outcome)
    (hv : (validateForm d).2 = true) (hp : includes endpoint "YOUR_FORM_ID" = false)
    (ho : o.failed = true) :
    (submitAndSettle endpoint o d).formStatus =
        (d.formStatus.map fun _ => shown failureMessage true) ∧
      (submitAndSettle endpoint o d).name.value = d.name.value ∧
      (submitAndSettle endpoint o d).email.value = d.email.value ∧
      (submitAndSettle endpoint o d).message.value = d.message.value ∧
      (submitAndSettle endpoint o d).submitBtn =
        d.submitBtn.map fun b => { disabled := false, textContent := b.textContent } := by
  have hs := handleSubmit_send endpoint d hv hp
  cases o with
  | response status =>
    have hok : responseOk status = false := by simpa [Outcome.failed] using ho
    rw [submitAndSettle_of_pending endpoint _ d _ _ hs rfl]
    simp only [settle, hok, showFormStatus_eq]
    cases hb : d.submitBtn <;> simp [validated, hb]
  | rejected =>
    rw [submitAndSettle_of_pending endpoint _ d _ _ hs rfl]
    simp only [settle, showFormStatus_eq]
    cases hb : d.submitBtn <;> simp [validated, hb]

/-- Claim C5 on the filled form, with a response of status 500 and with a
rejection. -/
theorem submit_failed_final_state_witness :
    (submitAndSettle FORMSPREE_ENDPOINT (.response 500) filledForm).formStatus =
        some ⟨failureMessage, "form-status form-status--error", some "alert"⟩ ∧
      (submitAndSettle FORMSPREE_ENDPOINT (.response 500) filledForm).name.value = units "A" ∧
      (submitAndSettle FORMSPREE_ENDPOINT (.response 500) filledForm).submitBtn =
        some ⟨false, "Send"⟩ ∧
      (submitAndSettle FORMSPREE_ENDPOINT .rejected filledForm).formStatus =
        some ⟨failureMessage, "form-status form-status--error", some "alert"⟩ :=
  have h := submit_failed_final_state FORMSPREE_ENDPOINT filledForm (.response 500)
    (by decide) (by decide) (by decide)
  have h2 := submit_failed_final_state FORMSPREE_ENDPOINT filledForm .rejected
    (by decide) (by decide) (by decide)
  ⟨h.1, h.2.1, h.2.2.2.2, h2.1⟩

/-! ## Theme -/

/-- Claim C6 fails on a stored value that is neither `light` nor `dark`:
with `blue` in storage `initTheme` applies the theme `dark` but assigns
`blue` as the color scheme, so the hint differs from the applied theme and is
neither `light` nor `dark`. -/
theorem initTheme_unrecognized_colorScheme :
    initTheme ⟨none, "", some "blue"⟩ = ⟨some "dark", "blue", some "blue"⟩ ∧
      (initTheme ⟨none, "", some "blue"⟩).dataTheme ≠
        some (initTheme ⟨none, "", some "blue"⟩).colorScheme := by
  decide

/-- The theme `initTheme` applies: `light` when that is what storage holds,
and `dark` for any other stored value and for none. -/
theorem initTheme_dataTheme (d : ThemeDoc) :
    (initTheme d).dataTheme = some (if d.stored = some "light" then "light" else "dark") := by
  rcases d with ⟨a, cs, st⟩
  cases st with
  | none => simp [initTheme]
  | some s =>
    by_cases h1 : s = ""
    · subst h1
      simp [initTheme]
    · by_cases h2 : s = "light" <;> simp [initTheme, h1, h2]

/-- Claim C7.  `toggleTheme` turns an applied `light` into `dark` and an
applied `dark` into `light`, and writes the new theme to the color scheme and
to storage as well; after a reload `initTheme` applies that same theme and
color scheme; toggling twice from `light` or from `dark` gives the applied
theme back. -/
theorem toggleTheme_flips_and_persists :
    (∀ cs st, toggleTheme ⟨some "light", cs, st⟩ = ⟨some "dark", "dark", some "dark"⟩) ∧
      (∀ cs st, toggleTheme ⟨some "dark", cs, st⟩ = ⟨some "light", "light", some "light"⟩) ∧
      (∀ d : ThemeDoc, ∃ v, (v = "light" ∨ v = "dark") ∧
        toggleTheme d = ⟨some v, v, some v⟩ ∧
        ∀ a cs, initTheme ⟨a, cs, (toggleTheme d).stored⟩ = toggleTheme d) ∧
      (∀ cs st, (toggleTheme (toggleTheme ⟨some "light", cs, st⟩)).dataTheme = some "light") ∧
      (∀ cs st, (toggleTheme (toggleTheme ⟨some "dark", cs, st⟩)).dataTheme = some "dark") := by
  refine ⟨fun _ _ => by simp [toggleTheme], fun _ _ => by simp [toggleTheme], ?_,
    fun _ _ => by simp [toggleTheme], fun _ _ => by simp [toggleTheme]⟩
  intro d
  by_cases h : d.dataTheme = some "light"
  · refine ⟨"dark", Or.inr rfl, by simp [toggleTheme, h], fun a cs => ?_⟩
    simp only [toggleTheme, h, if_true, initTheme]
    decide
  · refine ⟨"light", Or.inl rfl, by simp [toggleTheme, h], fun a cs => ?_⟩
    simp only [toggleTheme, h, if_false, initTheme]
    decide

/-! ## Mobile navigation -/

theorem navAfterClicks_present (n : Nat) :
    ∃ t l ov, navAfterClicks n = ⟨some t, some l, ov⟩ := by
  induction n with
  | zero => exact ⟨_, _, _, rfl⟩
  | succ n ih =>
    obtain ⟨t, l, ov, h⟩ := ih
    simp only [navAfterClicks, h, navToggleClick]
    exact ⟨_, _, _, rfl⟩

/-- Claim C8.  In every state reached from the closed state by clicks on
the toggle control, and in every state in which both elements exist, a resize
to a width above 768 gives the closed state; doing so again changes nothing;
a resize to a width of at most 768 leaves the state as it is.  One click opens
the navigation, and a resize to 1024 closes it. -/
theorem onResize_closes (w v : Int) (hw : 768 < w) (hv : v ≤ 768) (n : Nat)
    (t : NavToggle) (l : NavLinks) (ov : String) :
    onResize w (navAfterClicks n) = navClosed ∧
      onResize w ⟨some t, some l, ov⟩ = navClosed ∧
      onResize w navClosed = navClosed ∧
      onResize v (navAfterClicks n) = navAfterClicks n ∧
      onResize v ⟨some t, some l, ov⟩ = ⟨some t, some l, ov⟩ ∧
      navAfterClicks 1 = navOpened ∧
      onResize 1024 (navAfterClicks 1) = navClosed := by
  have hv' : ¬ v > 768 := not_lt.2 hv
  obtain ⟨t', l', ov', h⟩ := navAfterClicks_present n
  refine ⟨?_, ?_, ?_, ?_, ?_, by decide, by decide⟩
  · simp [h, onResize, closeMobileNav, navClosed, hw]
  · simp [onResize, closeMobileNav, navClosed, hw]
  · simp [onResize, closeMobileNav, navClosed, hw]
  · simp [h, onResize, hv']
  · simp [onResize, hv']

/-- Claim C8 after one click, at widths 1024 and 600. -/
theorem onResize_closes_witness :
    onResize 1024 (navAfterClicks 1) = navClosed ∧
      onResize 600 (navAfterClicks 1) = navAfterClicks 1 :=
  have h := onResize_closes 1024 600 (by decide) (by decide) 1 ⟨none⟩ ⟨true⟩ "hidden"
  ⟨h.1, h.2.2.2.1⟩

/-! ## Scroll reveal -/

theorem reveal_getElem_opt (rm : Bool) (h : Int) (els : List RevealEl) (i : Nat) :
    (reveal rm h els)[i]? = els[i]?.map fun b =>
      { revealed := b.revealed || rm || decide (b.top < (h : ℚ) - 80), top := b.top } := by
  cases rm with
  | true =>
    simp only [reveal, if_true, List.getElem?_map]
    cases els[i]? <;> simp
  | false =>
    simp only [reveal, Bool.false_eq_true, if_false, List.getElem?_map]
    cases hb : els[i]? with
    | none => simp
    | some b =>
      rcases b with ⟨r, t⟩
      cases r <;> by_cases ht : t < (h : ℚ) - 80 <;> simp [ht]

/-- Claim C10.  After a pass, the element at each position is revealed
exactly when it was revealed before, or reduced motion is set, or its top is
below the viewport height minus 80.  So a revealed element stays revealed,
also after a second pass with any other viewport height and positions, and
with reduced motion every element is revealed after one pass. -/
theorem reveal_pass (rm : Bool) (h : Int) (els : List RevealEl) (i : Nat) (b : RevealEl)
    (hb : els[i]? = some b) (h2 : Int) (tops : List ℚ) (t2 : ℚ) (ht : tops[i]? = some t2) :
    (reveal rm h els).length = els.length ∧
      (∃ a, (reveal rm h els)[i]? = some a ∧ a.top = b.top ∧
        (a.revealed = true ↔ (b.revealed = true ∨ rm = true ∨ b.top < (h : ℚ) - 80)) ∧
        (b.revealed = true → a.revealed = true)) ∧
      (∃ c, (reveal rm h2 (moveTo tops (reveal rm h els)))[i]? = some c ∧
        (b.revealed = true → c.revealed = true)) ∧
      (∀ a ∈ reveal true h els, a.revealed = true) := by
  refine ⟨?_, ?_, ?_, ?_⟩
  · cases rm <;> simp [reveal]
  · refine ⟨⟨b.revealed || rm || decide (b.top < (h : ℚ) - 80), b.top⟩,
      by rw [reveal_getElem_opt, hb]; rfl, rfl, by simp [or_assoc], ?_⟩
    intro hr
    simp [hr]
  · refine ⟨⟨(b.revealed || rm || decide (b.top < (h : ℚ) - 80)) || rm ||
        decide (t2 < (h2 : ℚ) - 80), t2⟩, ?_, ?_⟩
    · rw [reveal_getElem_opt, moveTo, List.getElem?_zipWith, reveal_getElem_opt, hb, ht]
      rfl
    · intro hr
      simp [hr]
  · intro a ha
    simp only [reveal, if_true, List.mem_map] at ha
    obtain ⟨e, -, rfl⟩ := ha
    rfl

/-- Claim C10 on two elements, the second one revealed and off screen. -/
theorem reveal_pass_witness :
    ∃ a, (reveal false 800 [⟨false, 100⟩, ⟨true, 1000⟩])[1]? = some a ∧ a.top = 1000 ∧
      (a.revealed = true ↔ (true = true ∨ false = true ∨ (1000 : ℚ) < (800 : Int) - 80)) ∧
      (true = true → a.revealed = true) :=
  (reveal_pass false 800 [⟨false, 100⟩, ⟨true, 1000⟩] 1 ⟨true, 1000⟩ rfl 900 [0, 2000] 2000
    rfl).2.1

/-! ## Active navigation link -/

theorem markFor_eq (id : String) (links : List NavLink) :
    markFor id links = links.map fun a => ⟨a.href, decide (a.href = "#" ++ id)⟩ := by
  unfold markFor
  apply List.map_congr_left
  intro a _
  by_cases h : a.href = "#" ++ id <;> simp [h]

theorem markFor_markFor (id id2 : String) (links : List NavLink) :
    markFor id2 (markFor id links) = markFor id2 links := by
  simp [markFor_eq, List.map_map, Function.comp_def]

theorem foldl_navStep (sections : List Section) (links : List NavLink) :
    sections.foldl navStep links =
      match currentSection sections with
      | none => links
      | some cur => markFor cur.id links := by
  induction sections using List.reverseRecOn with
  | nil => simp [currentSection]
  | append_singleton init s ih =>
    rw [List.foldl_append, ih]
    simp only [List.foldl_cons, List.foldl_nil, currentSection, List.filter_append]
    by_cases hid : s.id = ""
    · simp [navStep, hid, List.filter_cons, List.filter_nil]
    · by_cases hs : straddles s = true
      · have hf : List.filter (fun s => decide (s.id ≠ "") && straddles s) [s] = [s] := by
          simp [List.filter_cons, hid, hs]
        rw [hf, List.getLast?_append, List.getLast?_singleton]
        simp only [navStep, hid, hs, if_true, if_false, Option.or_some]
        cases (List.filter (fun s => decide (s.id ≠ "") && straddles s) init).getLast? with
        | none => rfl
        | some c => exact markFor_markFor _ _ _
      · simp [navStep, hid, hs, List.filter_cons, List.filter_nil]

theorem updateActiveNav_eq (sections : List Section) (links : List NavLink) :
    updateActiveNav sections links =
      match currentSection sections with
      | none => links
      | some cur => markFor cur.id links := by
  have h := foldl_navStep sections links
  unfold navStep at h
  unfold updateActiveNav
  by_cases hl : links.length = 0
  · have hnil : links = [] := List.length_eq_zero.1 hl
    subst hnil
    cases currentSection sections <;> simp [markFor]
  · rw [if_neg hl, h]

theorem activeCount_markFor (id : String) (links : List NavLink) :
    activeCount (markFor id links) = (links.map NavLink.href).count ("#" ++ id) := by
  rw [markFor_eq]
  induction links with
  | nil => rfl
  | cons a rest ih =>
    simp only [activeCount, List.map_cons, List.filter_cons, List.count_cons] at ih ⊢
    by_cases h : a.href = "#" ++ id
    · simp [h, ih]
    · simp [h, ih]

/-- Claim C9, as stated, fails.  When no section is current the pass clears
nothing, so two links marked before the pass are both still marked after it;
and when two links share the href of the current section, both get marked. -/
theorem updateActiveNav_not_at_most_one :
    activeCount (updateActiveNav [⟨"about", 800, 1400⟩]
        [⟨"#about", true⟩, ⟨"#work", true⟩]) = 2 ∧
      activeCount (updateActiveNav [⟨"home", 0, 600⟩]
        [⟨"#home", false⟩, ⟨"#home", false⟩]) = 2 := by
  constructor
  · norm_num [updateActiveNav, straddles, markFor]
    decide
  · norm_num [updateActiveNav, straddles, markFor]
    decide

/-- Claim C9, amended.  When some section with a non-empty id straddles the
150 pixel line, then with `cur` the last such section, after a pass a link is
marked active exactly when its href is `#` followed by the id of `cur`, every
other link is cleared, and at most one link is active if the hrefs are
pairwise distinct.  When no section is current, the pass leaves every link as
it was. -/
theorem updateActiveNav_marks (sections idle : List Section) (links : List NavLink)
    (cur : Section) (hcur : currentSection sections = some cur)
    (hidle : currentSection idle = none) :
    updateActiveNav sections links =
        links.map (fun a => ⟨a.href, decide (a.href = "#" ++ cur.id)⟩) ∧
      ((links.map NavLink.href).Nodup → activeCount (updateActiveNav sections links) ≤ 1) ∧
      updateActiveNav idle links = links := by
  refine ⟨?_, ?_, ?_⟩
  · rw [updateActiveNav_eq, hcur]
    exact markFor_eq _ _
  · intro hnd
    rw [updateActiveNav_eq, hcur]
    simp only []
    rw [activeCount_markFor]
    exact List.nodup_iff_count_le_one.1 hnd _
  · rw [updateActiveNav_eq, hidle]

/-- Claim C9, amended, on two overlapping sections and on a page with no
current section. -/
theorem updateActiveNav_marks_witness :
    updateActiveNav [⟨"home", 0, 600⟩, ⟨"about", 100, 900⟩]
        [⟨"#home", true⟩, ⟨"#about", false⟩, ⟨"#work", true⟩] =
      [⟨"#home", false⟩, ⟨"#about", true⟩, ⟨"#work", false⟩] ∧
      updateActiveNav [⟨"work", 900, 1500⟩] [⟨"#home", true⟩, ⟨"#about", false⟩, ⟨"#work", true⟩] =
        [⟨"#home", true⟩, ⟨"#about", false⟩, ⟨"#work", true⟩] :=
  have h := updateActiveNav_marks [⟨"home", 0, 600⟩, ⟨"about", 100, 900⟩]
    [⟨"work", 900, 1500⟩] [⟨"#home", true⟩, ⟨"#about", false⟩, ⟨"#work", true⟩]
    ⟨"about", 100, 900⟩
    (by norm_num [currentSection, straddles, List.filter_cons]; decide)
    (by norm_num [currentSection, straddles, List.filter_cons])
  ⟨by simpa using h.1, h.2.2⟩

end Portfolio
